import Mathlib

/-!
Shallow embedding of the Telegram content-delivery bot (two-variant repository;
this development follows the fuller, current variant `src/unnamed/part_000`,
which the specification describes as the superset design).

The embedding models:
- the three in-memory registries (pages `botData`, files `filesData`, `stats`),
  with JS objects as association lists in insertion order and JS `Set`s as
  duplicate-free lists in insertion order;
- the navigation engine (`showPage`, the `/start` handler, the callback-query
  handler) as pure functions from state plus inbound event to new state plus a
  list of outbound transport actions;
- the admin REST endpoints the claims are about (page CRUD, button sub-CRUD,
  export/import, search) as pure functions returning `Except` values.

The ambient date (`new Date().toDateString()`) is passed in as an explicit
`today : String` parameter; ISO timestamps are opaque strings.
-/

namespace TGBot

/-- JS truthiness of an optional string field: `undefined` and the empty
string are falsy, every other string is truthy. -/
def strTruthy : Option String → Bool
  | none => false
  | some s => s ≠ ""

/-- JS `String(x)` applied to an optional string: `String(undefined)` is the
literal text "undefined". -/
def jsStringOf : Option String → String
  | none => "undefined"
  | some s => s

/-- JS `String.prototype.startsWith`: a character-level test that `p` is a
leading piece of `s`. -/
def jsStartsWith (s p : String) : Bool :=
  p.toList.isPrefixOf s.toList

/-- Lookup in a JS object modelled as an association list (first binding for
the key, insertion order preserved). -/
def findVal {α : Type} (k : String) : List (String × α) → Option α
  | [] => none
  | (k', v) :: t => if k' = k then some v else findVal k t

/-- Assignment to an existing key of a JS object: the binding is replaced in
place, insertion order untouched. -/
def setVal {α : Type} (k : String) (v : α) (r : List (String × α)) :
    List (String × α) :=
  r.map fun p => if p.1 = k then (k, v) else p

/-- JS `delete obj[k]`: the binding for `k` is removed. -/
def removeKey {α : Type} (k : String) (r : List (String × α)) :
    List (String × α) :=
  r.filter fun p => p.1 ≠ k

/-- JS `Object.keys` of the modelled object. -/
def keysOf {α : Type} (r : List (String × α)) : List String :=
  r.map Prod.fst

/-- JS sparse-array assignment `a[i] = v`: within bounds it overwrites the
slot, beyond the current length it extends the array, filling the gap with
holes (`none`). -/
def jsArraySet {α : Type} (l : List (Option α)) (i : Nat) (v : α) :
    List (Option α) :=
  if i < l.length then l.set i (some v)
  else l ++ List.replicate (i - l.length) none ++ [some v]

/-- JS `Set.add` on a set modelled as a duplicate-free list in insertion
order. -/
def setAdd (l : List Int) (x : Int) : List Int :=
  if x ∈ l then l else l ++ [x]

/-- JS `new Set(array)`: deduplicate, keeping first occurrences in order. -/
def jsSetOfList (l : List Int) : List Int :=
  l.foldl setAdd []

/-- Inline button as stored in a page row: `text` plus the optional `url` /
`callback_data` fields the admin panel supplies. -/
structure Button where
  text : String
  url : Option String := none
  callback_data : Option String := none
deriving DecidableEq, Repr

/-- Button rows of a page. JS arrays are sparse, so each slot is either a
hole (`none`) or a row of buttons. -/
abbrev ButtonRows : Type := List (Option (List Button))

/-- Page record: `title`, `message` and the button grid. -/
structure Page where
  title : String
  message : String
  buttons : List (Option (List Button))
deriving DecidableEq, Repr

/-- File record as stored in `filesData` (the `file_id` field is Telegram's
transport handle; the empty string models a missing/falsy handle). -/
structure FileRecord where
  id : String
  name : String
  mimeType : String
  size : Nat
  file_id : String
  uploadDate : String
deriving DecidableEq, Repr

/-- Bot usage statistics (`stats` object); user sets are duplicate-free
lists, dates are opaque strings. -/
structure Stats where
  users : List Int
  messages : Nat
  todayUsers : List Int
  todayMessages : Nat
  startDate : String
  dailyReset : String
deriving DecidableEq, Repr

/-- Whole in-memory state: the three registries. -/
structure SysState where
  botData : List (String × Page)
  filesData : List (String × FileRecord)
  stats : Stats
deriving DecidableEq, Repr

/-- Inline-keyboard button in the transport shape built by `showPage`. -/
inductive KbButton where
  | urlBtn (text : String) (url : String)
  | cbBtn (text : String) (data : String)
deriving DecidableEq, Repr

/-- Transport keyboard: rows (possibly holes) of transport buttons. -/
abbrev Keyboard : Type := List (Option (List KbButton))

/-- Outbound transport actions the handlers emit, in order. `saveReq` is a
request to the persistent store to write all three documents. -/
inductive OutAction where
  | ack (queryId : String)
  | saveReq
  | sendText (chatId : Int) (text : String) (kb : Option Keyboard)
  | editText (chatId : Int) (messageId : Int) (text : String) (kb : Option Keyboard)
  | sendPhoto (chatId : Int) (fileId : String)
  | sendVideo (chatId : Int) (fileId : String)
  | sendAudio (chatId : Int) (fileId : String)
  | sendDocument (chatId : Int) (fileId : String)
deriving DecidableEq, Repr

/-- Localized notice sent by `showPage` when the page key is absent. -/
def pageNotFoundMsg : String := "⚠️ هذه الصفحة غير موجودة."

/-- Localized notice sent when a `file_` callback names an unavailable file. -/
def fileUnavailableMsg : String := "⚠️ هذا الملف غير متاح حالياً."

/-- Localized notice edited in when a `page_` callback names a missing page. -/
def pageUnavailableMsg : String := "⚠️ هذه الصفحة غير متاحة حالياً."

/-- Localized notice edited in for an unrecognized callback payload. -/
def unknownButtonMsg : String := "⚠️ هذا الزر غير متاح حالياً أو غير معروف."

/-- Localized welcome sent by `/start` when no pages exist. -/
def welcomeEmptyMsg : String :=
  "🤖 مرحباً بك في البوت!\n\nلا توجد صفحات متاحة حالياً.\nيمكن للمشرف إضافة صفحات من لوحة التحكم."

/-- Mapping of a stored button to the transport inline-keyboard shape: a
truthy `url` passes through as a URL button, otherwise the callback data is
stringified (`String(button.callback_data)`). -/
def kbOfButton (b : Button) : KbButton :=
  if strTruthy b.url then KbButton.urlBtn b.text (jsStringOf b.url)
  else KbButton.cbBtn b.text (jsStringOf b.callback_data)

/-- Keyboard built by `showPage` from a page's button grid (JS `map` keeps
holes as holes). -/
def keyboardOf (p : Page) : Keyboard :=
  p.buttons.map fun row => row.map fun r => r.map kbOfButton

/-- The navigation engine's `showPage(chatId, pageKey, messageId)`: a missing
page yields the not-found notice as a new message; a present page is rendered
with its keyboard, editing `messageId` in place when given, otherwise as a
new message. -/
def showPage (botData : List (String × Page)) (chatId : Int) (pageKey : String)
    (messageId : Option Int) : List OutAction :=
  match findVal pageKey botData with
  | none => [OutAction.sendText chatId pageNotFoundMsg none]
  | some page =>
    let msg := page.title ++ "\n\n" ++ page.message
    let kb := keyboardOf page
    match messageId with
    | some mid => [OutAction.editText chatId mid msg (some kb)]
    | none => [OutAction.sendText chatId msg (some kb)]

/-- The `resetDailyStats` function: when the stored `dailyReset` day string
differs from today's, empty `todayUsers`, zero `todayMessages`, stamp
`dailyReset` with today, and request a save; otherwise do nothing. -/
def resetDailyStats (today : String) (s : Stats) : Stats × List OutAction :=
  if s.dailyReset ≠ today then
    ({ s with todayUsers := [], todayMessages := 0, dailyReset := today },
     [OutAction.saveReq])
  else (s, [])

/-- The `/start` handler: roll the daily stats, record the interaction (both
user sets, both counters), request a save, then show `main_page` when
present, else the first page, else the welcome text. -/
def handleStart (st : SysState) (today : String) (chatId : Int) :
    SysState × List OutAction :=
  let rs := resetDailyStats today st.stats
  let s1 := rs.1
  let s2 := { s1 with
    users := setAdd s1.users chatId
    todayUsers := setAdd s1.todayUsers chatId
    messages := s1.messages + 1
    todayMessages := s1.todayMessages + 1 }
  let rest :=
    if st.botData.isEmpty then [OutAction.sendText chatId welcomeEmptyMsg none]
    else
      let initialPage :=
        if (findVal "main_page" st.botData).isSome then "main_page"
        else (keysOf st.botData).headD ""
      if initialPage ≠ "" then showPage st.botData chatId initialPage none
      else [OutAction.sendText chatId welcomeEmptyMsg none]
  ({ st with stats := s2 }, rs.2 ++ [OutAction.saveReq] ++ rest)

/-- Delivery of a file record by MIME class: `image/*` as photo, `video/*`
as video, `audio/*` as audio, anything else as generic document. -/
def deliverFileAction (chatId : Int) (f : FileRecord) : OutAction :=
  if jsStartsWith f.mimeType "image/" then OutAction.sendPhoto chatId f.file_id
  else if jsStartsWith f.mimeType "video/" then OutAction.sendVideo chatId f.file_id
  else if jsStartsWith f.mimeType "audio/" then OutAction.sendAudio chatId f.file_id
  else OutAction.sendDocument chatId f.file_id

/-- The callback-query handler: roll daily stats, bump both message
counters, request a save, acknowledge the callback, then dispatch on the
payload prefix (`file_`, `page_`, `text_`, otherwise the unknown-control
edit). The payload `data` is the decoded string the handler dispatches on. -/
def handleCallback (st : SysState) (today : String) (chatId messageId : Int)
    (queryId : String) (data : String) : SysState × List OutAction :=
  let rs := resetDailyStats today st.stats
  let s1 := rs.1
  let s2 := { s1 with messages := s1.messages + 1, todayMessages := s1.todayMessages + 1 }
  let pre := rs.2 ++ [OutAction.saveReq, OutAction.ack queryId]
  let branch : List OutAction :=
    if jsStartsWith data "file_" then
      let fileId := data.drop 5
      match findVal fileId st.filesData with
      | some f =>
        if f.file_id ≠ "" then [deliverFileAction chatId f]
        else [OutAction.sendText chatId fileUnavailableMsg none]
      | none => [OutAction.sendText chatId fileUnavailableMsg none]
    else if jsStartsWith data "page_" then
      let pageKey := data.drop 5
      if (findVal pageKey st.botData).isSome then
        showPage st.botData chatId pageKey (some messageId)
      else [OutAction.editText chatId messageId pageUnavailableMsg none]
    else if jsStartsWith data "text_" then
      [OutAction.sendText chatId (data.drop 5) none]
    else [OutAction.editText chatId messageId unknownButtonMsg none]
  ({ st with stats := s2 }, pre ++ branch)

/-- Error envelope of the admin API: HTTP 400 (validation) or 404 (not
found). -/
inductive ApiErr where
  | badRequest
  | notFound
deriving DecidableEq, Repr

/-- Request body of `POST /api/pages` (`pageData`): title, message and an
optional button grid. -/
structure PageIn where
  title : String
  message : String
  buttons : Option (List (Option (List Button))) := none
deriving DecidableEq, Repr

/-- Request body of `PUT /api/pages/:id`: the fields present are merged over
the stored page (JS object spread). -/
structure PageUpd where
  title : Option String := none
  message : Option String := none
  buttons : Option (List (Option (List Button))) := none
deriving DecidableEq, Repr

/-- The `POST /api/pages` endpoint: reject when `pageId`, `pageData`, its
`title` or its `message` is missing/falsy, reject a duplicate key, otherwise
insert the new page (absent `buttons` defaults to `[]`). -/
def apiCreatePage (r : List (String × Page)) (pageId : String)
    (pageData : Option PageIn) : Except ApiErr (List (String × Page)) :=
  match pageData with
  | none => Except.error ApiErr.badRequest
  | some pd =>
    if pageId = "" ∨ pd.title = "" ∨ pd.message = "" then
      Except.error ApiErr.badRequest
    else if (findVal pageId r).isSome then Except.error ApiErr.badRequest
    else
      Except.ok (r ++ [(pageId,
        { title := pd.title, message := pd.message,
          buttons := pd.buttons.getD [] })])

/-- JS spread merge of a partial update over a stored page. -/
def mergePage (p : Page) (u : PageUpd) : Page :=
  { title := u.title.getD p.title
    message := u.message.getD p.message
    buttons := u.buttons.getD p.buttons }

/-- The `PUT /api/pages/:id` endpoint: 404 when the key is absent, otherwise
merge the body over the stored page. -/
def apiUpdatePage (r : List (String × Page)) (pageId : String)
    (body : PageUpd) : Except ApiErr (List (String × Page)) :=
  match findVal pageId r with
  | none => Except.error ApiErr.notFound
  | some p => Except.ok (setVal pageId (mergePage p body) r)

/-- The `DELETE /api/pages/:id` endpoint: 404 when the key is absent,
otherwise remove the binding. -/
def apiDeletePage (r : List (String × Page)) (pageId : String) :
    Except ApiErr (List (String × Page)) :=
  match findVal pageId r with
  | none => Except.error ApiErr.notFound
  | some _ => Except.ok (removeKey pageId r)

/-- One Page Registry operation, as submitted over the admin API. -/
inductive PageOp where
  | create (pageId : String) (pageData : Option PageIn)
  | update (pageId : String) (body : PageUpd)
  | delete (pageId : String)
deriving DecidableEq, Repr

/-- Application of one operation through the endpoints: a failed request
leaves the registry unchanged. -/
def applyPageOp (r : List (String × Page)) : PageOp → List (String × Page)
  | PageOp.create pid pd =>
    match apiCreatePage r pid pd with
    | Except.ok r' => r'
    | Except.error _ => r
  | PageOp.update pid body =>
    match apiUpdatePage r pid body with
    | Except.ok r' => r'
    | Except.error _ => r
  | PageOp.delete pid =>
    match apiDeletePage r pid with
    | Except.ok r' => r'
    | Except.error _ => r

/-- Replay of a sequence of operations against the Page Registry. -/
def replayPageOps (r : List (String × Page)) : List PageOp → List (String × Page)
  | [] => r
  | op :: rest => replayPageOps (applyPageOp r op) rest

/-- Reference keyed map, written from the spec's words (not from the
source): create fails when the key already exists and otherwise adds it;
update changes no keys and fails with not-found when the key is absent;
delete removes the key when present and fails with not-found otherwise.
Only the key set is tracked. -/
def specMapApply (keys : List String) : PageOp → List String
  | PageOp.create pid _ => if pid ∈ keys then keys else keys ++ [pid]
  | PageOp.update _ _ => keys
  | PageOp.delete pid => keys.filter fun k => k ≠ pid

/-- Replay of a sequence of operations on the reference keyed map. -/
def specMapReplay (keys : List String) : List PageOp → List String
  | [] => keys
  | op :: rest => specMapReplay (specMapApply keys op) rest

/-- Whether an operation's create payload passes the endpoint's shape
validation (nonempty id, payload present, nonempty title and message);
update and delete operations are unconstrained. -/
def createWellFormed : PageOp → Bool
  | PageOp.create pid pd =>
    pid ≠ "" && (match pd with
      | some d => d.title ≠ "" && d.message ≠ ""
      | none => false)
  | _ => true

/-- The `A[t] = [] ; A[t].push(b)` step of the add-button endpoint: append
to the row at `t` when a row is stored there, otherwise create the row `[b]`
at index `t` (sparse assignment, padding with holes past the end). -/
def addButtonRows (bs : List (Option (List Button))) (b : Button)
    (rowIndex : Option Nat) : List (Option (List Button)) :=
  let t := rowIndex.getD bs.length
  match bs[t]? with
  | some (some row) => bs.set t (some (row ++ [b]))
  | _ => jsArraySet bs t [b]

/-- The `POST /api/pages/:pageId/buttons` endpoint: 404 when the page is
absent, 400 when `buttonData` or its `text` is missing/falsy, otherwise
store the button at the target row (`rowIndex` if given, else a fresh row
after the last). -/
def apiAddButton (r : List (String × Page)) (pageId : String)
    (buttonData : Option Button) (rowIndex : Option Nat) :
    Except ApiErr (List (String × Page)) :=
  match findVal pageId r with
  | none => Except.error ApiErr.notFound
  | some p =>
    match buttonData with
    | none => Except.error ApiErr.badRequest
    | some b =>
      if b.text = "" then Except.error ApiErr.badRequest
      else
        Except.ok (setVal pageId
          { p with buttons := addButtonRows p.buttons b rowIndex } r)

/-- The `DELETE /api/pages/:pageId/buttons` endpoint: 404 when the page, the
row (a non-array slot) or the button is absent; otherwise splice the button
out of its row and, when the row becomes empty, splice the row out too. -/
def apiDeleteButton (r : List (String × Page)) (pageId : String)
    (rowIndex : Nat) (buttonIndex : Option Nat) :
    Except ApiErr (List (String × Page)) :=
  match findVal pageId r with
  | none => Except.error ApiErr.notFound
  | some p =>
    match p.buttons[rowIndex]? with
    | some (some row) =>
      match buttonIndex with
      | none => Except.error ApiErr.notFound
      | some bi =>
        if bi < row.length then
          let row' := row.eraseIdx bi
          let bs' :=
            if row'.length = 0 then p.buttons.eraseIdx rowIndex
            else p.buttons.set rowIndex (some row')
          Except.ok (setVal pageId { p with buttons := bs' } r)
        else Except.error ApiErr.notFound
    | _ => Except.error ApiErr.notFound

/-- Stats section of the export document: the all-time user set as a plain
array, the all-time message count, and the ISO start date. -/
structure StatsExport where
  totalUsers : List Int
  totalMessages : Nat
  startDate : String
deriving DecidableEq, Repr

/-- Backup document shape: each top-level key may be absent. -/
structure Backup where
  botData : Option (List (String × Page)) := none
  filesData : Option (List (String × FileRecord)) := none
  stats : Option StatsExport := none
  exportDate : String := ""
deriving DecidableEq, Repr

/-- The `GET /api/export` endpoint: roll the daily stats, then serialize all
three documents (user set as a plain array) into one backup document. -/
def apiExport (st : SysState) (today : String) (nowIso : String) :
    SysState × Backup :=
  let rs := resetDailyStats today st.stats
  let s1 := rs.1
  ({ st with stats := s1 },
   { botData := some st.botData
     filesData := some st.filesData
     stats := some { totalUsers := s1.users, totalMessages := s1.messages,
                     startDate := s1.startDate }
     exportDate := nowIso })

/-- The `POST /api/import` endpoint: each top-level key present in the
backup wholesale-replaces the matching registry (the stats key also resets
the today counters and stamps `dailyReset` with today); absent keys leave
their registries untouched; finally a save is requested. -/
def apiImport (st : SysState) (b : Backup) (today : String) (nowIso : String) :
    SysState × List OutAction :=
  let bd := match b.botData with
    | some d => d
    | none => st.botData
  let fd := match b.filesData with
    | some d => d
    | none => st.filesData
  let s := match b.stats with
    | some se =>
      { users := jsSetOfList se.totalUsers
        messages := se.totalMessages
        startDate := if se.startDate ≠ "" then se.startDate else nowIso
        todayUsers := []
        todayMessages := 0
        dailyReset := today }
    | none => st.stats
  ({ botData := bd, filesData := fd, stats := s }, [OutAction.saveReq])

/-- One page hit of the search endpoint. -/
structure SearchPageHit where
  id : String
  title : String
deriving DecidableEq, Repr

/-- One file hit of the search endpoint. -/
structure SearchFileHit where
  id : String
  name : String
deriving DecidableEq, Repr

/-- Response shape of `GET /api/search`. -/
structure SearchResult where
  pages : List SearchPageHit
  files : List SearchFileHit
deriving DecidableEq, Repr

/-- JS `String.prototype.toLowerCase`, character by character. -/
def jsToLower (s : String) : String :=
  String.mk (s.toList.map Char.toLower)

/-- JS `String.prototype.includes` on the underlying character lists. -/
def strIncludes (s sub : String) : Bool :=
  decide (sub.toList <:+: s.toList)

/-- The `GET /api/search` endpoint: a missing or empty `q` yields the empty
result at once; otherwise a case-insensitive substring match over page
title/message/key and file name/type. Pure read, no state returned. -/
def apiSearch (st : SysState) (q : Option String) : SearchResult :=
  let query := match q with
    | some s => jsToLower s
    | none => ""
  if query = "" then { pages := [], files := [] }
  else
    { pages :=
        (st.botData.filter fun p =>
          strIncludes (jsToLower p.2.title) query ||
          strIncludes (jsToLower p.2.message) query ||
          strIncludes (jsToLower p.1) query).map fun p =>
            { id := p.1, title := p.2.title }
      files :=
        (st.filesData.filter fun p =>
          strIncludes (jsToLower p.2.name) query ||
          strIncludes (jsToLower p.2.mimeType) query).map fun p =>
            { id := p.1, name := p.2.name } }

/-! Helper lemmas about the registry and prefix primitives. -/

theorem findVal_isSome_iff {α : Type} (k : String) (r : List (String × α)) :
    (findVal k r).isSome = true ↔ k ∈ keysOf r := by
  induction r with
  | nil => simp [findVal, keysOf]
  | cons p t ih =>
    simp only [findVal, keysOf, List.map_cons, List.mem_cons]
    by_cases h : p.1 = k
    · simp [h]
    · simp only [if_neg h, ih, keysOf]
      constructor
      · exact Or.inr
      · rintro (h1 | h2)
        · exact absurd h1.symm h
        · exact h2

theorem keysOf_setVal {α : Type} (k : String) (v : α) (r : List (String × α)) :
    keysOf (setVal k v r) = keysOf r := by
  induction r with
  | nil => rfl
  | cons p t ih =>
    simp only [setVal, keysOf, List.map_cons] at ih ⊢
    by_cases h : p.1 = k
    · simp [h, ih, setVal]
    · simp [h, ih, setVal]

theorem keysOf_removeKey {α : Type} (k : String) (r : List (String × α)) :
    keysOf (removeKey k r) = (keysOf r).filter fun x => x ≠ k := by
  simp only [keysOf, removeKey, List.filter_map]
  rfl

theorem keysOf_append {α : Type} (r s : List (String × α)) :
    keysOf (r ++ s) = keysOf r ++ keysOf s := by
  simp [keysOf]

theorem filter_ne_of_not_mem {l : List String} {k : String} (h : k ∉ l) :
    (l.filter fun x => x ≠ k) = l := by
  apply List.filter_eq_self.mpr
  intro a ha
  simp only [ne_eq, decide_eq_true_eq]
  exact fun e => h (e ▸ ha)

theorem isPrefixOf_false_of_head_ne {c₁ c₂ : Char} (hne : c₁ ≠ c₂)
    (p₁ p₂ l : List Char) (h : List.isPrefixOf (c₁ :: p₁) l = true) :
    List.isPrefixOf (c₂ :: p₂) l = false := by
  cases l with
  | nil => simp [List.isPrefixOf] at h
  | cons b bs =>
    simp only [List.isPrefixOf, Bool.and_eq_true, beq_iff_eq] at h
    simp only [List.isPrefixOf, Bool.and_eq_false_iff]
    left
    have hb : b = c₁ := h.1.symm
    subst hb
    simp [hne.symm]

theorem page_not_file {d : String} (h : jsStartsWith d "page_" = true) :
    jsStartsWith d "file_" = false := by
  unfold jsStartsWith at h ⊢
  have hp : "page_".toList = 'p' :: ['a', 'g', 'e', '_'] := rfl
  have hf : "file_".toList = 'f' :: ['i', 'l', 'e', '_'] := rfl
  rw [hp] at h
  rw [hf]
  exact isPrefixOf_false_of_head_ne (by decide) _ _ _ h

theorem text_not_file {d : String} (h : jsStartsWith d "text_" = true) :
    jsStartsWith d "file_" = false := by
  unfold jsStartsWith at h ⊢
  have hp : "text_".toList = 't' :: ['e', 'x', 't', '_'] := rfl
  have hf : "file_".toList = 'f' :: ['i', 'l', 'e', '_'] := rfl
  rw [hp] at h
  rw [hf]
  exact isPrefixOf_false_of_head_ne (by decide) _ _ _ h

theorem text_not_page {d : String} (h : jsStartsWith d "text_" = true) :
    jsStartsWith d "page_" = false := by
  unfold jsStartsWith at h ⊢
  have hp : "text_".toList = 't' :: ['e', 'x', 't', '_'] := rfl
  have hf : "page_".toList = 'p' :: ['a', 'g', 'e', '_'] := rfl
  rw [hp] at h
  rw [hf]
  exact isPrefixOf_false_of_head_ne (by decide) _ _ _ h

theorem applyPageOp_keys (r : List (String × Page)) (op : PageOp)
    (h : createWellFormed op = true) :
    keysOf (applyPageOp r op) = specMapApply (keysOf r) op := by
  cases op with
  | create pid pd =>
    cases pd with
    | none => simp [createWellFormed] at h
    | some d =>
      simp only [createWellFormed, Bool.and_eq_true, ne_eq, decide_eq_true_eq] at h
      have h1 := h.1
      have h2 := h.2.1
      have h3 := h.2.2
      by_cases hex : (findVal pid r).isSome = true
      · have hm : pid ∈ keysOf r := (findVal_isSome_iff pid r).mp hex
        simp [applyPageOp, apiCreatePage, h1, h2, h3, hex, specMapApply, hm]
      · have hm : pid ∉ keysOf r := fun hmem => hex ((findVal_isSome_iff pid r).mpr hmem)
        simp only [keysOf] at hm
        simp [applyPageOp, apiCreatePage, h1, h2, h3, hex, specMapApply, hm,
          keysOf_append, keysOf]
  | update pid body =>
    cases hf : findVal pid r with
    | none => simp [applyPageOp, apiUpdatePage, hf, specMapApply]
    | some p => simp [applyPageOp, apiUpdatePage, hf, specMapApply, keysOf_setVal]
  | delete pid =>
    cases hf : findVal pid r with
    | none =>
      have hm : pid ∉ keysOf r := by
        rw [← findVal_isSome_iff]
        simp [hf]
      simp only [applyPageOp, apiDeletePage, hf, specMapApply]
      exact (filter_ne_of_not_mem hm).symm
    | some p => simp [applyPageOp, apiDeletePage, hf, specMapApply, keysOf_removeKey]

theorem replayPageOps_keys (ops : List PageOp) (r : List (String × Page))
    (h : ∀ op ∈ ops, createWellFormed op = true) :
    keysOf (replayPageOps r ops) = specMapReplay (keysOf r) ops := by
  induction ops generalizing r with
  | nil => rfl
  | cons op rest ih =>
    simp only [replayPageOps, specMapReplay]
    rw [← applyPageOp_keys r op (h op (List.mem_cons_self op rest))]
    exact ih (applyPageOp r op) fun o ho => h o (List.mem_cons_of_mem op ho)

/-! Claim theorems. -/

/-- C2: for every page key `k` not present in the Page Registry and every
chat, `showPage` (the concrete `render`) produces the localized
page-not-found notice as a new message to that chat, whatever the optional
`messageId`; as a total function of the embedding it never throws. -/
theorem C2_render_missing_page (botData : List (String × Page)) (chatId : Int)
    (k : String) (messageId : Option Int) (h : findVal k botData = none) :
    showPage botData chatId k messageId =
      [OutAction.sendText chatId pageNotFoundMsg none] := by
  simp [showPage, h]

/-- C2 witness: the not-found notice at a concrete empty registry. -/
theorem C2_render_missing_page_witness :
    showPage [] 1 "missing" (some 5) = [OutAction.sendText 1 pageNotFoundMsg none] :=
  C2_render_missing_page [] 1 "missing" (some 5) rfl

/-- C8: exporting and then importing the exported document on the otherwise
untouched system reproduces the Page Registry and the File Registry exactly
(the stats document is excepted: import resets the today counters). -/
theorem C8_export_import_roundtrip (st : SysState) (today nowIso nowIso2 : String) :
    (apiImport (apiExport st today nowIso).1 (apiExport st today nowIso).2
        today nowIso2).1.botData = st.botData ∧
    (apiImport (apiExport st today nowIso).1 (apiExport st today nowIso).2
        today nowIso2).1.filesData = st.filesData := by
  constructor <;> rfl

/-- C9: importing a backup replaces exactly the registries whose top-level
key (pages, files, stats) is present — pages and files wholesale with the
backup's content, stats with the backup's counts and start date while the
today counters are reset and `dailyReset` stamped with today — and leaves
the in-memory registry for every absent key unchanged. -/
theorem C9_partial_import_frame (st : SysState) (b : Backup) (today nowIso : String) :
    (b.botData = none → (apiImport st b today nowIso).1.botData = st.botData) ∧
    (b.filesData = none → (apiImport st b today nowIso).1.filesData = st.filesData) ∧
    (b.stats = none → (apiImport st b today nowIso).1.stats = st.stats) ∧
    (∀ d, b.botData = some d → (apiImport st b today nowIso).1.botData = d) ∧
    (∀ d, b.filesData = some d → (apiImport st b today nowIso).1.filesData = d) ∧
    (∀ se, b.stats = some se → (apiImport st b today nowIso).1.stats =
      { users := jsSetOfList se.totalUsers
        messages := se.totalMessages
        todayUsers := []
        todayMessages := 0
        startDate := if se.startDate ≠ "" then se.startDate else nowIso
        dailyReset := today }) := by
  refine ⟨fun h => ?_, fun h => ?_, fun h => ?_,
    fun d h => ?_, fun d h => ?_, fun se h => ?_⟩ <;> simp [apiImport, h]

/-- Sample state used by the C9 witness. -/
def sampleState9 : SysState :=
  { botData := [("p", { title := "t", message := "m", buttons := [] })]
    filesData := [("1", { id := "1", name := "n", mimeType := "text/plain",
                          size := 3, file_id := "H", uploadDate := "d" })]
    stats := { users := [7], messages := 2, todayUsers := [7], todayMessages := 1,
               startDate := "s", dailyReset := "Mon" } }

/-- Backup with all three top-level keys present, used by the C9 witness. -/
def sampleBackup9 : Backup :=
  { botData := some [("q", { title := "t2", message := "m2", buttons := [] })]
    filesData := some [("2", { id := "2", name := "n2", mimeType := "image/png",
                               size := 1, file_id := "K", uploadDate := "e" })]
    stats := some { totalUsers := [8, 8, 9], totalMessages := 5, startDate := "sd" }
    exportDate := "x" }

/-- C9 witness: an all-keys-absent backup leaves all three registries of a
concrete state unchanged, and an all-keys-present backup replaces all three
(pages and files with the backup's content, stats with the backup's counts,
deduplicated user list and start date, today counters reset). -/
theorem C9_partial_import_frame_witness :
    (apiImport sampleState9 {} "Tue" "now").1.botData = sampleState9.botData ∧
    (apiImport sampleState9 {} "Tue" "now").1.filesData = sampleState9.filesData ∧
    (apiImport sampleState9 {} "Tue" "now").1.stats = sampleState9.stats ∧
    (apiImport sampleState9 sampleBackup9 "Tue" "now").1.botData =
      [("q", { title := "t2", message := "m2", buttons := [] })] ∧
    (apiImport sampleState9 sampleBackup9 "Tue" "now").1.filesData =
      [("2", { id := "2", name := "n2", mimeType := "image/png",
               size := 1, file_id := "K", uploadDate := "e" })] ∧
    (apiImport sampleState9 sampleBackup9 "Tue" "now").1.stats =
      { users := [8, 9], messages := 5, todayUsers := [], todayMessages := 0,
        startDate := "sd", dailyReset := "Tue" } :=
  ⟨(C9_partial_import_frame sampleState9 {} "Tue" "now").1 rfl,
   (C9_partial_import_frame sampleState9 {} "Tue" "now").2.1 rfl,
   (C9_partial_import_frame sampleState9 {} "Tue" "now").2.2.1 rfl,
   (C9_partial_import_frame sampleState9 sampleBackup9 "Tue" "now").2.2.2.1 _ rfl,
   (C9_partial_import_frame sampleState9 sampleBackup9 "Tue" "now").2.2.2.2.1 _ rfl,
   (C9_partial_import_frame sampleState9 sampleBackup9 "Tue" "now").2.2.2.2.2 _ rfl⟩

/-- C10: a search whose query parameter is missing or empty returns the
empty result whatever the registries hold; `apiSearch` is a pure read, so
neither registry is modified. -/
theorem C10_search_empty_query (st : SysState) :
    apiSearch st none = { pages := [], files := [] } ∧
    apiSearch st (some "") = { pages := [], files := [] } := by
  constructor <;> rfl

/-- C4: when `dailyReset` (the stored `lastResetDay` string) differs from
today's day string, handling the first interaction of the new day first
empties the today user set, zeroes the today message counter and stamps
`dailyReset` with today, and only then records the interaction, so the today
message counter ends at exactly 1 (and for `/start` the today user set ends
as exactly the interacting chat); the comparison is a day-string comparison,
so on an equal day string nothing is reset and the counters simply advance. -/
theorem C4_daily_reset (st : SysState) (today : String) (chatId messageId : Int)
    (queryId data : String) :
    (st.stats.dailyReset ≠ today →
      (handleStart st today chatId).1.stats.todayMessages = 1 ∧
      (handleStart st today chatId).1.stats.todayUsers = [chatId] ∧
      (handleStart st today chatId).1.stats.dailyReset = today ∧
      (handleCallback st today chatId messageId queryId data).1.stats.todayMessages = 1 ∧
      (handleCallback st today chatId messageId queryId data).1.stats.dailyReset = today) ∧
    (st.stats.dailyReset = today →
      (handleStart st today chatId).1.stats.todayMessages = st.stats.todayMessages + 1 ∧
      (handleStart st today chatId).1.stats.todayUsers = setAdd st.stats.todayUsers chatId ∧
      (handleStart st today chatId).1.stats.dailyReset = st.stats.dailyReset ∧
      (handleCallback st today chatId messageId queryId data).1.stats.todayMessages =
        st.stats.todayMessages + 1) := by
  constructor
  · intro h
    simp [handleStart, handleCallback, resetDailyStats, h, setAdd]
  · intro h
    simp [handleStart, handleCallback, resetDailyStats, h]

/-- Sample state used by the C4 witness: `dailyReset` holds "Mon" with
nonzero today counters. -/
def sampleState4 : SysState :=
  { botData := []
    filesData := []
    stats := { users := [3], messages := 9, todayUsers := [3], todayMessages := 4,
               startDate := "s", dailyReset := "Mon" } }

/-- C4 witness: the first interaction on "Tue" yields today counters 1. -/
theorem C4_daily_reset_witness :
    (handleStart sampleState4 "Tue" 7).1.stats.todayMessages = 1 ∧
    (handleStart sampleState4 "Tue" 7).1.stats.todayUsers = [7] ∧
    (handleStart sampleState4 "Tue" 7).1.stats.dailyReset = "Tue" ∧
    (handleCallback sampleState4 "Tue" 7 2 "q" "x").1.stats.todayMessages = 1 ∧
    (handleCallback sampleState4 "Tue" 7 2 "q" "x").1.stats.dailyReset = "Tue" :=
  (C4_daily_reset sampleState4 "Tue" 7 2 "q" "x").1 (by decide)

/-- C5 (amended): recording a `/start` interaction adds the chat to both the
all-time and today user sets, increments both message counters and requests
a persistent-store save; recording a callback press increments both message
counters and requests a save, but adds the chat to neither user set. -/
theorem C5_record_interaction (st : SysState) (today : String)
    (chatId messageId : Int) (queryId data : String) :
    (handleStart st today chatId).1.stats.users = setAdd st.stats.users chatId ∧
    (handleStart st today chatId).1.stats.todayUsers =
      setAdd (resetDailyStats today st.stats).1.todayUsers chatId ∧
    (handleStart st today chatId).1.stats.messages = st.stats.messages + 1 ∧
    (handleStart st today chatId).1.stats.todayMessages =
      (resetDailyStats today st.stats).1.todayMessages + 1 ∧
    OutAction.saveReq ∈ (handleStart st today chatId).2 ∧
    (handleCallback st today chatId messageId queryId data).1.stats.users =
      st.stats.users ∧
    (handleCallback st today chatId messageId queryId data).1.stats.todayUsers =
      (resetDailyStats today st.stats).1.todayUsers ∧
    (handleCallback st today chatId messageId queryId data).1.stats.messages =
      st.stats.messages + 1 ∧
    (handleCallback st today chatId messageId queryId data).1.stats.todayMessages =
      (resetDailyStats today st.stats).1.todayMessages + 1 ∧
    OutAction.saveReq ∈ (handleCallback st today chatId messageId queryId data).2 := by
  by_cases h : st.stats.dailyReset = today <;>
    simp [handleStart, handleCallback, resetDailyStats, h]

/-- Sample state used by the C5 counterexample: all-empty stats on the
current day. -/
def sampleState5 : SysState :=
  { botData := []
    filesData := []
    stats := { users := [], messages := 0, todayUsers := [], todayMessages := 0,
               startDate := "s", dailyReset := "Mon" } }

/-- C5 counterexample: a callback-button press from chat 42 leaves both user
sets empty, although the claim says every inbound interaction adds the chat
id to both the all-time and today user sets. -/
theorem C5_record_interaction_counterexample :
    (handleCallback sampleState5 "Mon" 42 2 "q" "text_hi").1.stats.users = [] ∧
    (handleCallback sampleState5 "Mon" 42 2 "q" "text_hi").1.stats.todayUsers = [] ∧
    ¬ (42 : Int) ∈ (handleCallback sampleState5 "Mon" 42 2 "q" "text_hi").1.stats.users := by
  refine ⟨rfl, rfl, ?_⟩
  intro hmem
  rw [show (handleCallback sampleState5 "Mon" 42 2 "q" "text_hi").1.stats.users =
      [] from rfl] at hmem
  exact absurd hmem (List.not_mem_nil 42)

/-- C3 (amended): for every sequence of page create/update/delete operations
whose creates are well-formed (nonempty page id and a payload with nonempty
title and message — the shapes the endpoint does not reject as validation
errors), the key set of the Page Registry after replaying the sequence
through the endpoints equals the key set obtained by replaying the same
sequence on the reference keyed map. -/
theorem C3_registry_keyset_refinement (ops : List PageOp)
    (r : List (String × Page)) (h : ∀ op ∈ ops, createWellFormed op = true)
    (k : String) :
    k ∈ keysOf (replayPageOps r ops) ↔ k ∈ specMapReplay (keysOf r) ops := by
  rw [replayPageOps_keys ops r h]

/-- C3 witness: a concrete create-then-delete sequence replayed from the
empty registry. -/
theorem C3_registry_keyset_refinement_witness :
    "a" ∈ keysOf (replayPageOps []
        [PageOp.create "a" (some { title := "t", message := "m" }),
         PageOp.delete "b"]) ↔
    "a" ∈ specMapReplay (keysOf ([] : List (String × Page)))
        [PageOp.create "a" (some { title := "t", message := "m" }),
         PageOp.delete "b"] :=
  C3_registry_keyset_refinement
    [PageOp.create "a" (some { title := "t", message := "m" }),
     PageOp.delete "b"] [] (by decide) "a"

/-- C3 counterexample: the create of key "p" with an empty title is rejected
by the endpoint as a validation error (the registry keeps no key), while the
reference keyed map — whose create fails only on a duplicate key — records
key "p": the key sets after replay differ, refuting the claim as stated. -/
theorem C3_registry_keyset_refinement_counterexample :
    ¬ (∀ k : String, k ∈ keysOf (replayPageOps []
          [PageOp.create "p" (some { title := "", message := "m" })]) ↔
        k ∈ specMapReplay (keysOf ([] : List (String × Page)))
          [PageOp.create "p" (some { title := "", message := "m" })]) := by
  intro hall
  have h1 : "p" ∈ specMapReplay (keysOf ([] : List (String × Page)))
      [PageOp.create "p" (some { title := "", message := "m" })] := by decide
  have h2 := (hall "p").mpr h1
  exact absurd h2 (by decide)

/-- C6 (amended): adding a button to an existing page appends it to the row
at `rowIndex` when that index holds a row; with `rowIndex` omitted, or equal
to the number of row slots, a new row is opened right after the existing
rows; with `rowIndex` strictly beyond the row count the new row is created
at that index with hole slots filling the gap (sparse-array assignment), not
immediately after the existing rows; posting a button with no `rowIndex` to
a page whose buttons are `[]` yields exactly one row holding that button. -/
theorem C6_add_button (r : List (String × Page)) (pageId : String) (p : Page)
    (b : Button) (hp : findVal pageId r = some p) (hb : b.text ≠ "") :
    (apiAddButton r pageId (some b) none =
      Except.ok (setVal pageId { p with buttons := p.buttons ++ [some [b]] } r)) ∧
    (∀ i row, p.buttons[i]? = some (some row) →
      apiAddButton r pageId (some b) (some i) =
        Except.ok (setVal pageId
          { p with buttons := p.buttons.set i (some (row ++ [b])) } r)) ∧
    (apiAddButton r pageId (some b) (some p.buttons.length) =
      Except.ok (setVal pageId { p with buttons := p.buttons ++ [some [b]] } r)) ∧
    (∀ i, p.buttons.length < i →
      apiAddButton r pageId (some b) (some i) =
        Except.ok (setVal pageId
          { p with buttons :=
              p.buttons ++ List.replicate (i - p.buttons.length) none ++ [some [b]] } r)) ∧
    (p.buttons = [] →
      apiAddButton r pageId (some b) none =
        Except.ok (setVal pageId { p with buttons := [some [b]] } r)) := by
  have hlen : p.buttons[p.buttons.length]? = none :=
    List.getElem?_eq_none (le_refl _)
  refine ⟨?_, fun i row hrow => ?_, ?_, fun i hi => ?_, fun hbs => ?_⟩
  · simp [apiAddButton, hp, hb, addButtonRows, hlen, jsArraySet]
  · simp [apiAddButton, hp, hb, addButtonRows, hrow]
  · simp [apiAddButton, hp, hb, addButtonRows, hlen, jsArraySet]
  · have hni : p.buttons[i]? = none := List.getElem?_eq_none (le_of_lt hi)
    simp [apiAddButton, hp, hb, addButtonRows, hni, jsArraySet,
      Nat.not_lt_of_le (le_of_lt hi)]
  · simp [apiAddButton, hp, hb, addButtonRows, hbs, jsArraySet]

/-- Page used by the C6 witness and counterexample (the spec's scenario
page `promo` with empty buttons). -/
def promoPage : Page := { title := "Promo", message := "Hi", buttons := [] }

/-- Button used by the C6 witness and counterexample (the spec's scenario
button `Go`). -/
def goBtn : Button := { text := "Go", callback_data := some "page_main_page" }

/-- C6 witness: the scenario — posting `Go` with no `rowIndex` to `promo`
with empty buttons yields exactly `[[Go]]`. -/
theorem C6_add_button_witness :
    apiAddButton [("promo", promoPage)] "promo" (some goBtn) none =
      Except.ok (setVal "promo" { promoPage with buttons := [some [goBtn]] }
        [("promo", promoPage)]) :=
  (C6_add_button [("promo", promoPage)] "promo" promoPage goBtn rfl
    (by decide)).2.2.2.2 rfl

/-- C6 counterexample: with the out-of-range `rowIndex` 3 on a page with no
rows the handler creates the row at index 3 behind three hole slots (four
slots in total), not as a single row appended after the existing rows as the
claim states. -/
theorem C6_add_button_counterexample :
    apiAddButton [("promo", promoPage)] "promo" (some goBtn) (some 3) =
      Except.ok [("promo",
        { promoPage with buttons := [none, none, none, some [goBtn]] })] ∧
    ([none, none, none, some [goBtn]] : List (Option (List Button))) ≠
      [some [goBtn]] := by
  refine ⟨rfl, ?_⟩
  decide

/-- C7: deleting the button at `buttons[rowIndex][buttonIndex]` removes
exactly that button from its row; when the row thereby becomes empty the row
itself is spliced out, preserving the order of the remaining rows (deleting
the only button of the only row leaves `buttons = []`); an index naming a
non-existent row (missing or hole slot) or a non-existent button yields the
not-found error with the registry unchanged — the handler is a total
function, so no out-of-bounds fault can occur. -/
theorem C7_delete_button (r : List (String × Page)) (pageId : String) (p : Page)
    (hp : findVal pageId r = some p) :
    (∀ ri row bi, p.buttons[ri]? = some (some row) → bi < row.length →
      apiDeleteButton r pageId ri (some bi) =
        Except.ok (setVal pageId
          { p with buttons :=
              if row.eraseIdx bi = [] then p.buttons.eraseIdx ri
              else p.buttons.set ri (some (row.eraseIdx bi)) } r)) ∧
    (∀ btn, p.buttons = [some [btn]] →
      apiDeleteButton r pageId 0 (some 0) =
        Except.ok (setVal pageId { p with buttons := [] } r)) ∧
    (∀ ri bi, p.buttons[ri]? = none →
      apiDeleteButton r pageId ri bi = Except.error ApiErr.notFound) ∧
    (∀ ri bi, p.buttons[ri]? = some none →
      apiDeleteButton r pageId ri bi = Except.error ApiErr.notFound) ∧
    (∀ ri row bi, p.buttons[ri]? = some (some row) → row.length ≤ bi →
      apiDeleteButton r pageId ri (some bi) = Except.error ApiErr.notFound) := by
  refine ⟨fun ri row bi hrow hbi => ?_, fun btn hbs => ?_,
    fun ri bi hri => ?_, fun ri bi hri => ?_, fun ri row bi hrow hbi => ?_⟩
  · simp [apiDeleteButton, hp, hrow, hbi, List.length_eq_zero]
  · simp [apiDeleteButton, hp, hbs]
  · simp [apiDeleteButton, hp, hri]
  · simp [apiDeleteButton, hp, hri]
  · simp [apiDeleteButton, hp, hrow, Nat.not_lt_of_le hbi]

/-- Page used by the C7 witness: exactly one row holding one button. -/
def oneBtnPage : Page :=
  { title := "t", message := "m", buttons := [some [{ text := "x" }]] }

/-- C7 witness: deleting the only button of the only row leaves
`buttons = []`. -/
theorem C7_delete_button_witness :
    apiDeleteButton [("pg", oneBtnPage)] "pg" 0 (some 0) =
      Except.ok (setVal "pg" { oneBtnPage with buttons := [] }
        [("pg", oneBtnPage)]) :=
  (C7_delete_button [("pg", oneBtnPage)] "pg" oneBtnPage rfl).2.1
    { text := "x" } rfl

/-- C1 (amended): callback dispatch of `handleCallback` (the concrete
`handleInteraction`), after the common stats/save/acknowledge preamble:
a `file_` payload looks up the named record and delivers it by MIME class
(`image/*` as photo, `video/*` as video, `audio/*` as audio, anything else
as generic document) addressed to the chat when the record is present with a
nonempty transport handle; when the record is absent — or present but with
an empty (falsy) handle — the file-unavailable notice is sent as a new
message, the existing message is not edited; a `page_` payload renders the
named page by editing the given message in place (a missing page edits in
the page-unavailable notice); a `text_` payload sends the literal after the
prefix verbatim as a new message; any other payload edits the existing
message with the unknown-control notice. The handler is a total function of
the embedding, so no payload can crash it. -/
theorem C1_callback_routing (st : SysState) (today : String)
    (chatId messageId : Int) (queryId data : String) :
    (jsStartsWith data "file_" = true →
      (findVal (data.drop 5) st.filesData = none →
        (handleCallback st today chatId messageId queryId data).2 =
          (resetDailyStats today st.stats).2 ++
            [OutAction.saveReq, OutAction.ack queryId,
             OutAction.sendText chatId fileUnavailableMsg none]) ∧
      (∀ f, findVal (data.drop 5) st.filesData = some f →
        (f.file_id = "" →
          (handleCallback st today chatId messageId queryId data).2 =
            (resetDailyStats today st.stats).2 ++
              [OutAction.saveReq, OutAction.ack queryId,
               OutAction.sendText chatId fileUnavailableMsg none]) ∧
        (f.file_id ≠ "" →
          (handleCallback st today chatId messageId queryId data).2 =
            (resetDailyStats today st.stats).2 ++
              [OutAction.saveReq, OutAction.ack queryId,
               if jsStartsWith f.mimeType "image/" then
                 OutAction.sendPhoto chatId f.file_id
               else if jsStartsWith f.mimeType "video/" then
                 OutAction.sendVideo chatId f.file_id
               else if jsStartsWith f.mimeType "audio/" then
                 OutAction.sendAudio chatId f.file_id
               else OutAction.sendDocument chatId f.file_id]))) ∧
    (jsStartsWith data "page_" = true →
      (∀ p, findVal (data.drop 5) st.botData = some p →
        (handleCallback st today chatId messageId queryId data).2 =
          (resetDailyStats today st.stats).2 ++
            [OutAction.saveReq, OutAction.ack queryId,
             OutAction.editText chatId messageId (p.title ++ "\n\n" ++ p.message)
               (some (keyboardOf p))]) ∧
      (findVal (data.drop 5) st.botData = none →
        (handleCallback st today chatId messageId queryId data).2 =
          (resetDailyStats today st.stats).2 ++
            [OutAction.saveReq, OutAction.ack queryId,
             OutAction.editText chatId messageId pageUnavailableMsg none])) ∧
    (jsStartsWith data "text_" = true →
      (handleCallback st today chatId messageId queryId data).2 =
        (resetDailyStats today st.stats).2 ++
          [OutAction.saveReq, OutAction.ack queryId,
           OutAction.sendText chatId (data.drop 5) none]) ∧
    (jsStartsWith data "file_" = false → jsStartsWith data "page_" = false →
      jsStartsWith data "text_" = false →
      (handleCallback st today chatId messageId queryId data).2 =
        (resetDailyStats today st.stats).2 ++
          [OutAction.saveReq, OutAction.ack queryId,
           OutAction.editText chatId messageId unknownButtonMsg none]) := by
  refine ⟨fun hf => ⟨fun hnone => ?_, fun f hsome => ⟨fun hemp => ?_, fun hne => ?_⟩⟩,
    fun hpp => ⟨fun p hsome => ?_, fun hnone => ?_⟩, fun ht => ?_,
    fun h1 h2 h3 => ?_⟩
  · simp [handleCallback, hf, hnone]
  · simp [handleCallback, hf, hsome, hemp]
  · simp [handleCallback, hf, hsome, hne, deliverFileAction]
  · simp [handleCallback, page_not_file hpp, hpp, hsome, showPage]
  · simp [handleCallback, page_not_file hpp, hpp, hnone]
  · simp [handleCallback, text_not_file ht, text_not_page ht, ht]
  · simp [handleCallback, h1, h2, h3]

/-- State used by the C1 witness and counterexample: a file record "9" with
an empty transport handle, a record "7" with a handle, and one page. -/
def sampleState1 : SysState :=
  { botData := [("main_page", { title := "T", message := "M", buttons := [] })]
    filesData :=
      [("9", { id := "9", name := "broken", mimeType := "image/png", size := 1,
               file_id := "", uploadDate := "d" }),
       ("7", { id := "7", name := "clip", mimeType := "video/mp4", size := 2,
               file_id := "H", uploadDate := "d" })]
    stats := { users := [], messages := 0, todayUsers := [], todayMessages := 0,
               startDate := "s", dailyReset := "Mon" } }

/-- C1 witness: payload `file_404` (absent record) yields the unavailable
notice as a new message after the save/acknowledge preamble. -/
theorem C1_callback_routing_witness :
    (handleCallback sampleState1 "Mon" 1 2 "q" "file_404").2 =
      (resetDailyStats "Mon" sampleState1.stats).2 ++
        [OutAction.saveReq, OutAction.ack "q",
         OutAction.sendText 1 fileUnavailableMsg none] :=
  ((C1_callback_routing sampleState1 "Mon" 1 2 "q" "file_404").1
    (by decide)).1 (by decide)

/-- C1 counterexample: payload `file_9` names a record that is present in
the File Registry, yet the handler sends the unavailable notice instead of
delivering it (its transport handle is empty), refuting the claim that a
present record is always delivered by MIME class. -/
theorem C1_callback_routing_counterexample :
    (findVal "9" sampleState1.filesData).isSome = true ∧
    (handleCallback sampleState1 "Mon" 1 2 "q" "file_9").2 =
      [OutAction.saveReq, OutAction.ack "q",
       OutAction.sendText 1 fileUnavailableMsg none] := by
  refine ⟨rfl, rfl⟩

end TGBot
